import Mathlib

/-!
Shallow embedding of `tensormeterclient.py` (MBI-Div-B/tensormeterclient).

The embedding follows the source closely:
  * `Fmt` models the Python `struct` format characters used in the lookup
    table (`'d'`, `'?'`, `'H'`, `'I'`, `'i'`).
  * Byte strings are `List Nat` (each entry one byte); all multi-byte
    quantities are big-endian, matching the `'>'` prefix used throughout.
  * 64-bit floats are modelled by their 64-bit patterns (as `Int` in
    `[0, 2^64)`): the codec only serialises and deserialises the raw
    big-endian bytes, so bit patterns capture its behaviour exactly.
  * Python booleans are modelled as the integers 0 and 1.
  * Fallible operations return `Except PyErr`; `PyErr` mirrors the Python
    exception classes that the source can raise, and `PyErr.isValueError`
    mirrors which of them the `except ValueError` handler in
    `TensormeterRTM1Client._reader` would catch.
-/

namespace Tensormeter

/-- The `struct` format characters appearing in `TensormeterData.LUT`:
`d` = float64, `qm` = the boolean format `?`, `H` = uint16, `I` = uint32,
`i` = int32. -/
inductive Fmt
  | d
  | qm
  | H
  | I
  | i
  deriving DecidableEq, Repr

/-- Byte width of one element of the given format. -/
def Fmt.width : Fmt → Nat
  | .d => 8
  | .qm => 1
  | .H => 2
  | .I => 4
  | .i => 4

/-- Big-endian serialisation of `n` into exactly `w` bytes (the low
`8*w` bits of `n`). -/
def toBytesBE : Nat → Nat → List Nat
  | 0, _ => []
  | w + 1, n => toBytesBE w (n / 256) ++ [n % 256]

/-- Big-endian deserialisation of a byte list into a natural number. -/
def fromBytesBE (bs : List Nat) : Nat :=
  bs.foldl (fun acc b => acc * 256 + b) 0

/-- Exceptions that the translated code can raise.  `structError` models
`struct.error` (which in Python derives from `Exception`, not from
`ValueError`); `fieldUpdateError` models the `ValueError` raised by
`TensormeterData.update` with the field code and payload byte count;
`bufferError` and `reshapeError` model the `ValueError`s raised by
`numpy.frombuffer` and `numpy.reshape`; `unicodeError` models
`UnicodeDecodeError`, which is a `ValueError` subclass. -/
inductive PyErr
  | structError
  | fieldUpdateError (cmd : String) (nbytes : Nat)
  | bufferError
  | reshapeError
  | unicodeError
  | keyError
  | typeError
  | notImplementedError
  | timeoutError
  deriving DecidableEq, Repr

/-- Which of the modelled exceptions are (subclasses of) Python
`ValueError`, hence caught by the `except ValueError` in `_reader`. -/
def PyErr.isValueError : PyErr → Bool
  | .fieldUpdateError _ _ => true
  | .bufferError => true
  | .reshapeError => true
  | .unicodeError => true
  | _ => false

/-- Decoded values held in the data dictionary: scalars, 1-d sequences,
2-d arrays and the textual identity field. -/
inductive TmValue
  | scalar (v : Int)
  | vector (vs : List Int)
  | matrix (m : List (List Int))
  | text (s : String)
  deriving DecidableEq, Repr

/-- `TensormeterData.LUT`: field code to (dimensions, format), in source
order. -/
def LUT : List (String × Nat × Fmt) :=
  [("avgt", 0, .d), ("lfrq", 0, .d), ("vamp", 0, .d), ("vpro", 0, .d),
   ("camp", 0, .d), ("cpro", 0, .d), ("virg", 0, .d), ("cudc", 0, .d),
   ("vodc", 0, .d), ("vorg", 0, .d), ("crng", 0, .d), ("sres", 0, .d),
   ("aaup", 0, .qm), ("tcai", 0, .qm), ("refe", 0, .qm),
   ("cmod", 0, .H), ("amod", 0, .H), ("mod?", 0, .H),
   ("trmo", 0, .I), ("meas", 0, .i),
   ("swit", 1, .I), ("selc", 1, .i), ("puar", 1, .d),
   ("newd", 2, .d), ("alld", 2, .d),
   ("mult", 0, .H), ("auup", 0, .qm)]

/-- Dictionary lookup `TensormeterData.LUT[cmd]` as a partial map. -/
def lut (cmd : String) : Option (Nat × Fmt) :=
  (LUT.find? (fun e => e.1 == cmd)).map (·.2)

/-- Values accepted by `struct.pack` for one element of the format: for
the boolean format any object is accepted (its truthiness is packed);
the integer formats require the value in range; float64 bit patterns
cover `[0, 2^64)`. -/
def packable : Fmt → Int → Bool
  | .d, v => decide (0 ≤ v ∧ v < 2 ^ 64)
  | .qm, _ => true
  | .H, v => decide (0 ≤ v ∧ v < 2 ^ 16)
  | .I, v => decide (0 ≤ v ∧ v < 2 ^ 32)
  | .i, v => decide (-2 ^ 31 ≤ v ∧ v < 2 ^ 31)

/-- In-range values of the declared element type (for the boolean format
the two booleans, modelled 0 and 1). -/
def inRangeB : Fmt → Int → Bool
  | .qm, v => decide (v = 0 ∨ v = 1)
  | fmt, v => packable fmt v

/-- `struct.pack('>' + fmt, v)` for one element (assuming `packable`). -/
def encBytes : Fmt → Int → List Nat
  | .d, v => toBytesBE 8 v.toNat
  | .qm, v => [if v = 0 then 0 else 1]
  | .H, v => toBytesBE 2 v.toNat
  | .I, v => toBytesBE 4 v.toNat
  | .i, v => toBytesBE 4 (v % 2 ^ 32).toNat

/-- `struct.unpack('>' + fmt, bs)` for one element of exactly
`fmt.width` bytes. -/
def decElem : Fmt → List Nat → Int
  | .d, bs => (fromBytesBE bs : Nat)
  | .qm, bs => if fromBytesBE bs = 0 then 0 else 1
  | .H, bs => fromBytesBE bs
  | .I, bs => fromBytesBE bs
  | .i, bs =>
    if fromBytesBE bs < 2 ^ 31 then (fromBytesBE bs : Int)
    else (fromBytesBE bs : Int) - 2 ^ 32

/-- Concatenation of a list of byte strings. -/
def flat : List (List Nat) → List Nat
  | [] => []
  | b :: bs => b ++ flat bs

/-- Sequential decode of `n` elements of the format from the front of a
byte string, as `struct.unpack(f">{n}{fmt}", bs)` and
`numpy.frombuffer` do. -/
def readElems (fmt : Fmt) : Nat → List Nat → List Int
  | 0, _ => []
  | n + 1, bs => decElem fmt (bs.take fmt.width) :: readElems fmt n (bs.drop fmt.width)

/-- `numpy.reshape(cols, rows)` of a flat element list in C (row-major)
order: `cols` rows of `rows` elements each. -/
def reshape2 : Nat → Nat → List Int → List (List Int)
  | 0, _, _ => []
  | c + 1, rows, es => es.take rows :: reshape2 c rows (es.drop rows)

/-- `bytes.decode("ASCII")` on bytes already checked to be below 128. -/
def asciiString (bs : List Nat) : String :=
  String.mk (bs.map Char.ofNat)

/-- Body of `TensormeterData.pack` once the catalog entry is looked up:
dimension 0 packs one element, dimension 1 packs a big-endian uint32
count followed by the elements, anything else raises
`NotImplementedError`.  Out-of-range elements raise `struct.error`;
taking `len` of a non-sequence raises `TypeError`. -/
def packDims (dims : Nat) (fmt : Fmt) (v : TmValue) : Except PyErr (List Nat) :=
  if dims = 0 then
    match v with
    | .scalar x =>
      if packable fmt x then .ok (encBytes fmt x) else .error .structError
    | _ => .error .structError
  else if dims = 1 then
    match v with
    | .vector xs =>
      if xs.length < 2 ^ 32 then
        if xs.all (fun x => packable fmt x) then
          .ok (toBytesBE 4 xs.length ++ flat (xs.map (encBytes fmt)))
        else .error .structError
      else .error .structError
    | _ => .error .typeError
  else .error .notImplementedError

/-- `TensormeterData.pack(cmd, data)`.  An absent code raises `KeyError`
(dictionary lookup `self.LUT[cmd]`). -/
def pack (cmd : String) (v : TmValue) : Except PyErr (List Nat) :=
  match lut cmd with
  | none => .error .keyError
  | some (dims, fmt) => packDims dims fmt v

/-- Body of `TensormeterData.unpack` once the catalog entry is looked
up.  Dimension 0 requires the payload length to equal the element width
(`struct.error` otherwise).  Dimension 1 reads a big-endian uint32
count and then exactly that many elements (`struct.error` on any length
mismatch).  Dimension 2 reads `(rows, cols)` from the first 8 bytes,
then `numpy.frombuffer` takes every remaining byte (raising a
`ValueError` when the remainder is not a multiple of the element width)
and `numpy.reshape(cols, rows)` raises a `ValueError` unless the
element count equals `cols * rows`. -/
def unpackDims (dims : Nat) (fmt : Fmt) (data : List Nat) : Except PyErr TmValue :=
  if dims = 0 then
    if data.length = fmt.width then .ok (.scalar (decElem fmt data))
    else .error .structError
  else if dims = 1 then
    if data.length < 4 then .error .structError
    else
      if (data.drop 4).length = fromBytesBE (data.take 4) * fmt.width then
        .ok (.vector (readElems fmt (fromBytesBE (data.take 4)) (data.drop 4)))
      else .error .structError
  else if dims = 2 then
    if data.length < 8 then .error .structError
    else
      if (data.drop 8).length % fmt.width = 0 then
        if (data.drop 8).length / fmt.width =
            fromBytesBE ((data.drop 4).take 4) * fromBytesBE (data.take 4) then
          .ok (.matrix (reshape2 (fromBytesBE ((data.drop 4).take 4))
            (fromBytesBE (data.take 4))
            (readElems fmt ((data.drop 8).length / fmt.width) (data.drop 8))))
        else .error .reshapeError
      else .error .bufferError
  else .error .notImplementedError

/-- `TensormeterData.unpack(cmd, data)`.  The identity code `TENS`
decodes the payload as ASCII text prefixed by the code itself; any
other code is looked up in the catalog and dispatched on its
dimensionality. -/
def unpack (cmd : String) (data : List Nat) : Except PyErr TmValue :=
  if cmd = "TENS" then
    if data.all (fun b => b < 128) then
      .ok (.text ("TENS" ++ asciiString data))
    else .error .unicodeError
  else
    match lut cmd with
    | none => .error .keyError
    | some (dims, fmt) => unpackDims dims fmt data

/-- The state store `TensormeterData.data`: a snapshot value per field
code.  Keys are characterised by `recognized`; unrecognized codes are
never written. -/
def Store := String → Option TmValue

/-- Dictionary membership `cmd in self.data`: every `LUT` code plus the
reserved identity code `TENS`. -/
def recognized (cmd : String) : Bool :=
  cmd == "TENS" || (lut cmd).isSome

/-- The store built by `TensormeterData.__init__`: every catalog code
unset, the identity code mapped to the empty text. -/
def initStore : Store :=
  fun cmd => if cmd = "TENS" then some (.text "") else none

/-- `TensormeterData.update(cmd, data)`: an unrecognized code raises the
`ValueError` carrying the code and the payload byte count; otherwise the
payload is unpacked (exceptions propagate) and assigned. -/
def update (st : Store) (cmd : String) (data : List Nat) : Except PyErr Store :=
  if recognized cmd then
    match unpack cmd data with
    | .ok v => .ok (fun c => if c = cmd then some v else st c)
    | .error e => .error e
  else .error (.fieldUpdateError cmd data.length)

/-- One iteration of the body of `TensormeterRTM1Client._reader` for a
fully framed inbound message `(cmd, data)`: when the payload is
non-empty the store update runs inside `try ... except ValueError`, so
a `ValueError` is logged and swallowed while any other exception
escapes (`.error`); the returned `Bool` records whether the data-ready
event is set (`cmd` is `newd` or `alld`). -/
def processMessage (st : Store) (cmd : String) (data : List Nat) :
    Except PyErr (Store × Bool) :=
  if data.isEmpty then .ok (st, cmd == "newd" || cmd == "alld")
  else
    match update st cmd data with
    | .ok st' => .ok (st', cmd == "newd" || cmd == "alld")
    | .error e =>
      if e.isValueError then .ok (st, cmd == "newd" || cmd == "alld")
      else .error e

/-- What the socket hands the receive loop: either one framed message
(already assembled, as the payload accumulation loop in `_reader`
guarantees) or a zero-byte read of the length prefix, meaning the
remote end closed the connection. -/
inductive Inbound
  | msg (cmd : String) (data : List Nat)
  | closed

/-- Observable outcome of running `_reader` over a sequence of inbound
events: the final store, the `_stopped` flag, whether `close()` ran,
and the exception, if any, that escaped the thread. -/
structure ReaderResult where
  store : Store
  stopped : Bool
  closed : Bool
  crash : Option PyErr

/-- `TensormeterRTM1Client._reader`: process inbound events in order.  A
zero-byte read sets `_stopped`, calls `close()` and exits; an escaped
exception terminates the thread with `_stopped` still unset and the
socket still open. -/
def readerRun (st : Store) : List Inbound → ReaderResult
  | [] => ⟨st, false, false, none⟩
  | Inbound.closed :: _ => ⟨st, true, true, none⟩
  | Inbound.msg cmd data :: rest =>
    match processMessage st cmd data with
    | .ok (st', _) => readerRun st' rest
    | .error e => ⟨st, false, false, some e⟩

/-- Python truthiness of the values that can be passed to `send`. -/
def truthyVal : TmValue → Bool
  | .scalar v => v != 0
  | .vector vs => !vs.isEmpty
  | .matrix m => !m.isEmpty
  | .text s => !s.isEmpty

/-- Truthiness of the `data` argument of `send` (default `None`). -/
def truthy : Option TmValue → Bool
  | none => false
  | some w => truthyVal w

/-- `cmd.encode("ASCII")` viewed as a byte list (valid below 128). -/
def asciiBytes (s : String) : List Nat :=
  s.toList.map Char.toNat

/-- `data_bytes = self._tensordata.pack(cmd, data) if data else b''`:
a falsy `data` yields an empty payload, otherwise the payload is
`pack(cmd, data)` (whose exceptions propagate). -/
def payloadBytes (cmd : String) (v : Option TmValue) : Except PyErr (List Nat) :=
  match v with
  | some w => if truthyVal w then pack cmd w else Except.ok []
  | none => Except.ok []

/-- `struct.pack(f'>I {len(cmd)}s', count, cmd_bytes) + data_bytes`
with `count = len(cmd_bytes) + len(data_bytes)`: the framed message.
`cmd.encode("ASCII")` raises on non-ASCII codes, and `struct.pack`
raises when the count exceeds the uint32 range. -/
def frame (cmd : String) (dataBytes : List Nat) : Except PyErr (List Nat) :=
  if cmd.toList.all (fun c => c.toNat < 128) then
    if (asciiBytes cmd).length + dataBytes.length < 2 ^ 32 then
      Except.ok (toBytesBE 4 ((asciiBytes cmd).length + dataBytes.length) ++
        asciiBytes cmd ++ dataBytes)
    else Except.error .structError
  else Except.error .unicodeError

/-- `TensormeterRTM1Client.send(cmd, data)`: the bytes written to the
socket, or the exception raised while building them. -/
def sendMsg (cmd : String) (v : Option TmValue) : Except PyErr (List Nat) :=
  match payloadBytes cmd v with
  | .error e => .error e
  | .ok dataBytes => frame cmd dataBytes

/-- `TensormeterRTM1Client.measure(nmeas)`, a wrapper over `send`. -/
def measure (nmeas : Int) : Except PyErr (List Nat) :=
  sendMsg "meas" (some (.scalar nmeas))

/-- `TensormeterRTM1Client.select_channels(channels)`. -/
def select_channels (channels : List Int) : Except PyErr (List Nat) :=
  sendMsg "selc" (some (.vector channels))

/-- `TensormeterRTM1Client.clear_data()`. -/
def clear_data : Except PyErr (List Nat) :=
  sendMsg "cldt" none

/-- Client-side state visible to `get_data`: the store snapshot and the
data-ready event flag. -/
structure ClientState where
  store : Store
  dataReady : Bool

/-- `TensormeterRTM1Client.get_data(timeout, all_data)`.  The timed wait
on the event is modelled by its outcome: `signalArrives` tells whether
the receive loop sets the event during the wait window, so the wait
succeeds when the event was already set or the signal arrives.  Result:
the bytes sent, the client state afterwards, and either the stored
value for the chosen code or a `TimeoutError`. -/
def get_data (cs : ClientState) (allData : Bool) (signalArrives : Bool) :
    Except PyErr (List Nat) × ClientState × Except PyErr (Option TmValue) :=
  let cmd := if allData then "alld" else "newd"
  let msg := sendMsg cmd none
  if cs.dataReady || signalArrives then
    (msg, { cs with dataReady := false }, .ok (cs.store cmd))
  else
    (msg, cs, .error .timeoutError)

/-! ### Byte-level lemmas -/

theorem length_toBytesBE (w n : Nat) : (toBytesBE w n).length = w := by
  induction w generalizing n with
  | zero => rfl
  | succ w ih => simp [toBytesBE, ih]

theorem fromBytesBE_append_one (bs : List Nat) (b : Nat) :
    fromBytesBE (bs ++ [b]) = fromBytesBE bs * 256 + b := by
  simp [fromBytesBE, List.foldl_append]

theorem fromBytesBE_toBytesBE (w n : Nat) (h : n < 256 ^ w) :
    fromBytesBE (toBytesBE w n) = n := by
  induction w generalizing n with
  | zero =>
    have : n = 0 := by simpa using h
    simp [this, toBytesBE, fromBytesBE]
  | succ w ih =>
    have h' : n < 256 ^ w * 256 := by rw [pow_succ] at h; exact h
    have hdiv : n / 256 < 256 ^ w := by omega
    rw [toBytesBE, fromBytesBE_append_one, ih (n / 256) hdiv]
    omega

theorem length_encBytes (fmt : Fmt) (v : Int) :
    (encBytes fmt v).length = fmt.width := by
  cases fmt <;> simp [encBytes, Fmt.width, length_toBytesBE]

theorem inRangeB_packable (fmt : Fmt) (v : Int) (h : inRangeB fmt v = true) :
    packable fmt v = true := by
  cases fmt <;> simp_all [inRangeB, packable]

theorem decElem_encBytes (fmt : Fmt) (v : Int) (h : inRangeB fmt v = true) :
    decElem fmt (encBytes fmt v) = v := by
  cases fmt with
  | d =>
    simp only [inRangeB, packable, decide_eq_true_eq] at h
    simp only [show ((2 : Int) ^ 64) = 18446744073709551616 from by norm_num] at h
    have hn : v.toNat < 256 ^ 8 := by
      rw [show (256 : Nat) ^ 8 = 18446744073709551616 from by norm_num]
      omega
    simp only [decElem, encBytes, fromBytesBE_toBytesBE 8 v.toNat hn]
    exact Int.toNat_of_nonneg h.1
  | qm =>
    simp only [inRangeB, decide_eq_true_eq] at h
    rcases h with rfl | rfl <;> simp [decElem, encBytes, fromBytesBE]
  | H =>
    simp only [inRangeB, packable, decide_eq_true_eq] at h
    simp only [show ((2 : Int) ^ 16) = 65536 from by norm_num] at h
    have hn : v.toNat < 256 ^ 2 := by
      rw [show (256 : Nat) ^ 2 = 65536 from by norm_num]
      omega
    simp only [decElem, encBytes, fromBytesBE_toBytesBE 2 v.toNat hn]
    exact Int.toNat_of_nonneg h.1
  | I =>
    simp only [inRangeB, packable, decide_eq_true_eq] at h
    simp only [show ((2 : Int) ^ 32) = 4294967296 from by norm_num] at h
    have hn : v.toNat < 256 ^ 4 := by
      rw [show (256 : Nat) ^ 4 = 4294967296 from by norm_num]
      omega
    simp only [decElem, encBytes, fromBytesBE_toBytesBE 4 v.toNat hn]
    exact Int.toNat_of_nonneg h.1
  | i =>
    simp only [inRangeB, packable, decide_eq_true_eq] at h
    simp only [decElem, encBytes]
    simp only [show ((2 : Int) ^ 31) = 2147483648 from by norm_num,
      show ((2 : Int) ^ 32) = 4294967296 from by norm_num,
      show ((2 : Nat) ^ 31) = 2147483648 from by norm_num] at h ⊢
    have hmod0 : (0 : Int) ≤ v % 4294967296 := Int.emod_nonneg v (by norm_num)
    have hmod1 : v % 4294967296 < 4294967296 := Int.emod_lt_of_pos v (by norm_num)
    have hn : (v % 4294967296).toNat < 256 ^ 4 := by
      rw [show (256 : Nat) ^ 4 = 4294967296 from by norm_num]
      omega
    rw [fromBytesBE_toBytesBE 4 _ hn]
    split_ifs with hlt <;> omega

/-! ### Flattened element lists -/

theorem length_flat_encBytes (fmt : Fmt) (vs : List Int) :
    (flat (vs.map (encBytes fmt))).length = vs.length * fmt.width := by
  induction vs with
  | nil => simp [flat]
  | cons v vs ih =>
    simp [flat, length_encBytes, ih]
    ring

theorem length_readElems (fmt : Fmt) (n : Nat) (bs : List Nat) :
    (readElems fmt n bs).length = n := by
  induction n generalizing bs with
  | zero => rfl
  | succ n ih => simp [readElems, ih]

theorem readElems_flat (fmt : Fmt) (vs : List Int)
    (h : vs.all (fun x => inRangeB fmt x) = true) :
    readElems fmt vs.length (flat (vs.map (encBytes fmt))) = vs := by
  induction vs with
  | nil => rfl
  | cons v vs ih =>
    simp only [List.all_cons, Bool.and_eq_true] at h
    simp only [List.map_cons, flat, List.length_cons, readElems]
    rw [List.take_left' (length_encBytes fmt v),
      List.drop_left' (length_encBytes fmt v),
      decElem_encBytes fmt v h.1, ih h.2]

/-! ### Reshape lemmas -/

theorem length_reshape2 (c r : Nat) (es : List Int) :
    (reshape2 c r es).length = c := by
  induction c generalizing es with
  | zero => rfl
  | succ c ih => simp [reshape2, ih]

theorem length_mem_reshape2 (c r : Nat) (es : List Int) (h : es.length = c * r) :
    ∀ row ∈ reshape2 c r es, row.length = r := by
  induction c generalizing es with
  | zero => intro row hr; simp [reshape2] at hr
  | succ c ih =>
    intro row hr
    simp only [reshape2, List.mem_cons] at hr
    rcases hr with rfl | hr
    · have hle : r ≤ es.length := by
        rw [h, Nat.succ_mul]; omega
      simp [List.length_take]
      omega
    · refine ih (es.drop r) ?_ row hr
      rw [List.length_drop, h, Nat.succ_mul]
      omega

/-! ### Catalog lemmas -/

theorem lut_TENS : lut "TENS" = none := by decide

theorem ne_TENS_of_lut (cmd : String) (p : Nat × Fmt) (h : lut cmd = some p) :
    cmd ≠ "TENS" := by
  intro hc
  rw [hc, lut_TENS] at h
  exact Option.noConfusion h

theorem pack_eq_packDims (cmd : String) (dims : Nat) (fmt : Fmt)
    (h : lut cmd = some (dims, fmt)) (v : TmValue) :
    pack cmd v = packDims dims fmt v := by
  unfold pack
  rw [h]

theorem unpack_eq_unpackDims (cmd : String) (dims : Nat) (fmt : Fmt)
    (h : lut cmd = some (dims, fmt)) (data : List Nat) :
    unpack cmd data = unpackDims dims fmt data := by
  unfold unpack
  rw [if_neg (ne_TENS_of_lut cmd _ h), h]

theorem length_asciiBytes (s : String) : (asciiBytes s).length = s.length := by
  cases s
  simp [asciiBytes, String.length, String.toList]

/-! ### Unfolding lemmas for the codec bodies -/

theorem packDims_scalar (fmt : Fmt) (x : Int) :
    packDims 0 fmt (.scalar x) =
      if packable fmt x then .ok (encBytes fmt x) else .error .structError := rfl

theorem packDims_vector (fmt : Fmt) (xs : List Int) :
    packDims 1 fmt (.vector xs) =
      if xs.length < 2 ^ 32 then
        if xs.all (fun x => packable fmt x) then
          .ok (toBytesBE 4 xs.length ++ flat (xs.map (encBytes fmt)))
        else .error .structError
      else .error .structError := rfl

theorem unpackDims_scalar (fmt : Fmt) (data : List Nat) :
    unpackDims 0 fmt data =
      if data.length = fmt.width then .ok (.scalar (decElem fmt data))
      else .error .structError := rfl

theorem unpackDims_vector (fmt : Fmt) (data : List Nat) :
    unpackDims 1 fmt data =
      if data.length < 4 then .error .structError
      else
        if (data.drop 4).length = fromBytesBE (data.take 4) * fmt.width then
          .ok (.vector (readElems fmt (fromBytesBE (data.take 4)) (data.drop 4)))
        else .error .structError := rfl

theorem unpackDims_matrix (fmt : Fmt) (data : List Nat) :
    unpackDims 2 fmt data =
      if data.length < 8 then .error .structError
      else
        if (data.drop 8).length % fmt.width = 0 then
          if (data.drop 8).length / fmt.width =
              fromBytesBE ((data.drop 4).take 4) * fromBytesBE (data.take 4) then
            .ok (.matrix (reshape2 (fromBytesBE ((data.drop 4).take 4))
              (fromBytesBE (data.take 4))
              (readElems fmt ((data.drop 8).length / fmt.width) (data.drop 8))))
          else .error .reshapeError
        else .error .bufferError := rfl

/-- Matrix decode of a well-formed 8-byte header followed by an
arbitrary remainder, fully reduced. -/
theorem unpackDims_matrix_header (rows cols : Nat) (hr : rows < 2 ^ 32)
    (hc : cols < 2 ^ 32) (rest : List Nat) :
    unpackDims 2 .d (toBytesBE 4 rows ++ (toBytesBE 4 cols ++ rest)) =
      if rest.length % 8 = 0 then
        if rest.length / 8 = cols * rows then
          .ok (.matrix (reshape2 cols rows (readElems .d (rest.length / 8) rest)))
        else .error .reshapeError
      else .error .bufferError := by
  have hlen4 : (toBytesBE 4 rows).length = 4 := length_toBytesBE 4 rows
  have hlen4' : (toBytesBE 4 cols).length = 4 := length_toBytesBE 4 cols
  have e4 : (256 : Nat) ^ 4 = 2 ^ 32 := by norm_num
  have ht4 : (toBytesBE 4 rows ++ (toBytesBE 4 cols ++ rest)).take 4 =
      toBytesBE 4 rows := List.take_left' hlen4
  have hd4 : (toBytesBE 4 rows ++ (toBytesBE 4 cols ++ rest)).drop 4 =
      toBytesBE 4 cols ++ rest := List.drop_left' hlen4
  have ht8 : ((toBytesBE 4 rows ++ (toBytesBE 4 cols ++ rest)).drop 4).take 4 =
      toBytesBE 4 cols := by
    rw [hd4]
    exact List.take_left' hlen4'
  have hd8 : (toBytesBE 4 rows ++ (toBytesBE 4 cols ++ rest)).drop 8 = rest := by
    rw [show (8 : Nat) = 4 + 4 from rfl, ← List.drop_drop, hd4]
    exact List.drop_left' hlen4'
  have hlen : (toBytesBE 4 rows ++ (toBytesBE 4 cols ++ rest)).length =
      8 + rest.length := by
    simp only [List.length_append, hlen4, hlen4']
    omega
  rw [unpackDims_matrix, hd8, ht8, ht4,
    fromBytesBE_toBytesBE 4 rows (by rw [e4]; exact hr),
    fromBytesBE_toBytesBE 4 cols (by rw [e4]; exact hc),
    hlen, if_neg (by omega)]
  rfl

/-! ### Claim C1: codec round trip -/

/-- C1: for every scalar field code in the catalog and every in-range
value of its declared element type, and for every vector field code and
every in-range element sequence, unpacking the bytes produced by
packing gives the original value back. -/
theorem C1_codec_roundtrip (cmd : String) (dims : Nat) (fmt : Fmt)
    (hlut : lut cmd = some (dims, fmt)) :
    (dims = 0 → ∀ v : Int, inRangeB fmt v = true →
      ∃ bs, pack cmd (.scalar v) = .ok bs ∧ unpack cmd bs = .ok (.scalar v)) ∧
    (dims = 1 → ∀ vs : List Int, vs.length < 2 ^ 32 →
      vs.all (fun x => inRangeB fmt x) = true →
      ∃ bs, pack cmd (.vector vs) = .ok bs ∧ unpack cmd bs = .ok (.vector vs)) := by
  constructor
  · rintro rfl v hv
    refine ⟨encBytes fmt v, ?_, ?_⟩
    · rw [pack_eq_packDims cmd 0 fmt hlut, packDims_scalar,
        if_pos (inRangeB_packable fmt v hv)]
    · rw [unpack_eq_unpackDims cmd 0 fmt hlut, unpackDims_scalar,
        length_encBytes, if_pos rfl, decElem_encBytes fmt v hv]
  · rintro rfl vs hlen hall
    have e4 : (256 : Nat) ^ 4 = 2 ^ 32 := by norm_num
    have hallp : vs.all (fun x => packable fmt x) = true := by
      rw [List.all_eq_true] at hall ⊢
      intro x hx
      exact inRangeB_packable fmt x (hall x hx)
    refine ⟨toBytesBE 4 vs.length ++ flat (vs.map (encBytes fmt)), ?_, ?_⟩
    · rw [pack_eq_packDims cmd 1 fmt hlut, packDims_vector, if_pos hlen,
        if_pos hallp]
    · have h4 : (toBytesBE 4 vs.length).length = 4 := length_toBytesBE _ _
      have ht : (toBytesBE 4 vs.length ++ flat (vs.map (encBytes fmt))).take 4 =
          toBytesBE 4 vs.length := List.take_left' h4
      have hd : (toBytesBE 4 vs.length ++ flat (vs.map (encBytes fmt))).drop 4 =
          flat (vs.map (encBytes fmt)) := List.drop_left' h4
      have hL : (toBytesBE 4 vs.length ++ flat (vs.map (encBytes fmt))).length =
          4 + vs.length * fmt.width := by
        simp only [List.length_append, h4, length_flat_encBytes]
      rw [unpack_eq_unpackDims cmd 1 fmt hlut, unpackDims_vector, ht, hd,
        fromBytesBE_toBytesBE 4 vs.length (by rw [e4]; exact hlen),
        if_neg (by rw [hL]; omega), length_flat_encBytes, if_pos rfl,
        readElems_flat fmt vs hall]

/-- Witness for C1, at the float64 scalar code `avgt` and the int32
vector code `selc`. -/
theorem C1_codec_roundtrip_witness :
    (∃ bs, pack "avgt" (.scalar 3) = .ok bs ∧
      unpack "avgt" bs = .ok (.scalar 3)) ∧
    (∃ bs, pack "selc" (.vector [5, -1]) = .ok bs ∧
      unpack "selc" bs = .ok (.vector [5, -1])) := by
  constructor
  · exact (C1_codec_roundtrip "avgt" 0 .d (by decide)).1 rfl 3 (by decide)
  · exact (C1_codec_roundtrip "selc" 1 .i (by decide)).2 rfl [5, -1]
      (by decide) (by decide)

/-! ### Claim C2: matrix axis swap -/

/-- C2: for every matrix-typed field code (`newd`, `alld`), decoding a
payload whose first 8 bytes are big-endian uint32 `(rows, cols)`
followed by the elements in transmitted order (`8 * rows * cols`
remaining bytes) yields a 2-d result with `cols` rows and `rows`
columns — the transmitted-axis swap. -/
theorem C2_matrix_axis_swap (cmd : String) (rows cols : Nat) (rest : List Nat)
    (hcmd : cmd = "newd" ∨ cmd = "alld") (hr : rows < 2 ^ 32)
    (hc : cols < 2 ^ 32) (hrest : rest.length = 8 * (rows * cols)) :
    ∃ m, unpack cmd (toBytesBE 4 rows ++ (toBytesBE 4 cols ++ rest)) =
      .ok (.matrix m) ∧ m.length = cols ∧ ∀ row ∈ m, row.length = rows := by
  have hlut : lut cmd = some (2, Fmt.d) := by
    rcases hcmd with rfl | rfl <;> rfl
  rw [unpack_eq_unpackDims cmd 2 .d hlut,
    unpackDims_matrix_header rows cols hr hc rest,
    if_pos (by rw [hrest]; omega),
    if_pos (by rw [hrest, Nat.mul_comm rows cols]; omega)]
  refine ⟨_, rfl, length_reshape2 cols rows _, ?_⟩
  apply length_mem_reshape2
  rw [length_readElems, hrest, Nat.mul_comm rows cols]
  omega

/-- Witness for C2: `rows = 2`, `cols = 3` plus 6 float64 elements
decodes to 3 rows of 2 columns. -/
theorem C2_matrix_axis_swap_witness :
    ∃ m, unpack "newd" (toBytesBE 4 2 ++ (toBytesBE 4 3 ++ List.replicate 48 0)) =
      .ok (.matrix m) ∧ m.length = 3 ∧ ∀ row ∈ m, row.length = 2 :=
  C2_matrix_axis_swap "newd" 2 3 (List.replicate 48 0) (Or.inl rfl)
    (by norm_num) (by norm_num) (by decide)

/-! ### Claim C3: receive-loop failure isolation -/

/-- C3 counterexample: a `meas`-class scalar field with a wrong-length
1-byte payload makes `unpack` raise `struct.error`, which is not a
`ValueError` and therefore escapes the `except ValueError` handler in
`_reader`: the receive loop terminates with a crash instead of
continuing. -/
theorem C3_counterexample :
    readerRun initStore [Inbound.msg "avgt" [0]] =
      { store := initStore, stopped := false, closed := false,
        crash := some PyErr.structError } := rfl

/-- C3 amended: a decode/store failure that raises a `ValueError` (an
unrecognized field code, a non-ASCII identity payload, or a numpy
buffer/reshape mismatch) is logged and does not stop the loop, and the
loop body only crashes on failures that are not `ValueError`s; but a
`struct.error` from a wrong-length scalar or vector payload is not
caught and terminates the receive loop. -/
theorem C3_update_failure_isolation (st : Store) (cmd : String)
    (data : List Nat) :
    (∀ e, update st cmd data = .error e → e.isValueError = true →
      processMessage st cmd data = .ok (st, cmd == "newd" || cmd == "alld")) ∧
    (∀ e, processMessage st cmd data = .error e → e.isValueError = false) := by
  unfold processMessage
  by_cases hemp : data.isEmpty
  · rw [if_pos hemp]
    exact ⟨fun e _ _ => rfl, fun e h => Except.noConfusion h⟩
  · rw [if_neg hemp]
    cases hupd : update st cmd data with
    | ok st' =>
      refine ⟨fun e he _ => absurd he (by simp), fun e he => Except.noConfusion he⟩
    | error e' =>
      constructor
      · intro e he hval
        injection he with h1
        subst h1
        show (if e'.isValueError = true then
          Except.ok (st, cmd == "newd" || cmd == "alld") else Except.error e') = _
        rw [if_pos hval]
      · intro e he
        replace he : (if e'.isValueError = true then
            Except.ok (st, cmd == "newd" || cmd == "alld")
            else Except.error e') = Except.error e := he
        by_cases hv : e'.isValueError
        · rw [if_pos hv] at he
          exact Except.noConfusion he
        · rw [if_neg hv] at he
          injection he with h1
          subst h1
          exact Bool.not_eq_true _ ▸ hv

/-- Witness for C3 (amended): an unrecognized code with a non-empty
payload raises the update `ValueError`, which the loop swallows. -/
theorem C3_update_failure_isolation_witness :
    processMessage initStore "zzzz" [0] = .ok (initStore, false) :=
  (C3_update_failure_isolation initStore "zzzz" [0]).1
    (.fieldUpdateError "zzzz" 1) rfl rfl

/-! ### Claim C4: matrix length validation -/

/-- C4 counterexample: a matrix payload whose remaining length (16
bytes, 2 elements) disagrees with `rows * cols * element_width`
(`1 * 1 * 8 = 8`) does not decode to a value — it fails with the numpy
reshape `ValueError`. -/
theorem C4_counterexample :
    unpack "newd" (toBytesBE 4 1 ++ (toBytesBE 4 1 ++ List.replicate 16 0)) =
      .error .reshapeError := rfl

/-- C4 amended: matrix decode has no explicit fail-fast bounds check of
its own, but the numpy array construction and reshape validate anyway:
for every matrix-typed code and every payload whose remaining length
after the 8-byte header disagrees with `rows * cols * element_width`,
decode fails with a `ValueError` (buffer-size or reshape mismatch)
rather than returning a value. -/
theorem C4_length_mismatch_fails (cmd : String) (rows cols : Nat)
    (rest : List Nat) (hcmd : cmd = "newd" ∨ cmd = "alld")
    (hr : rows < 2 ^ 32) (hc : cols < 2 ^ 32)
    (hrest : rest.length ≠ 8 * (rows * cols)) :
    ∃ e, unpack cmd (toBytesBE 4 rows ++ (toBytesBE 4 cols ++ rest)) =
      .error e ∧ e.isValueError = true := by
  have hlut : lut cmd = some (2, Fmt.d) := by
    rcases hcmd with rfl | rfl <;> rfl
  rw [unpack_eq_unpackDims cmd 2 .d hlut,
    unpackDims_matrix_header rows cols hr hc rest]
  by_cases hm : rest.length % 8 = 0
  · rw [if_pos hm, if_neg ?_]
    · exact ⟨.reshapeError, rfl, rfl⟩
    · intro hdiv
      apply hrest
      rw [Nat.mul_comm cols rows] at hdiv
      omega
  · rw [if_neg hm]
    exact ⟨.bufferError, rfl, rfl⟩

/-- Witness for C4 (amended): remaining length 4 is not a multiple of
the element width, so decode fails with the numpy buffer
`ValueError`. -/
theorem C4_length_mismatch_fails_witness :
    ∃ e, unpack "alld" (toBytesBE 4 1 ++ (toBytesBE 4 1 ++ List.replicate 4 0)) =
      .error e ∧ e.isValueError = true :=
  C4_length_mismatch_fails "alld" 1 1 (List.replicate 4 0) (Or.inr rfl)
    (by norm_num) (by norm_num) (by decide)

/-! ### Claim C5: framed send -/

/-- C5: `send` with a 4-character ASCII catalog code and a truthy value
whose packing succeeds writes a 4-byte big-endian length prefix equal
to 4 plus the payload length, then the 4-byte ASCII code, then the
packed payload; in particular `measure(5)` writes exactly
`00 00 00 08 6D 65 61 73 00 00 00 05`. -/
theorem C5_send_framing :
    (∀ (cmd : String) (v : TmValue) (payload : List Nat),
      cmd.toList.all (fun c => c.toNat < 128) = true →
      cmd.length = 4 →
      truthyVal v = true →
      pack cmd v = .ok payload →
      payload.length < 2 ^ 32 - 4 →
      sendMsg cmd (some v) =
        .ok (toBytesBE 4 (4 + payload.length) ++ asciiBytes cmd ++ payload)) ∧
    measure 5 = .ok [0, 0, 0, 8, 0x6D, 0x65, 0x61, 0x73, 0, 0, 0, 5] := by
  constructor
  · intro cmd v payload hascii hlen4 htr hpack hplen
    have hpb : payloadBytes cmd (some v) = .ok payload := by
      show (if truthyVal v = true then pack cmd v else Except.ok []) =
        Except.ok payload
      rw [if_pos htr, hpack]
    unfold sendMsg
    rw [hpb]
    show frame cmd payload = _
    unfold frame
    rw [if_pos hascii, length_asciiBytes, hlen4, if_pos (by omega)]
  · rfl

/-- Witness for C5, at the float64 scalar code `avgt` with value bit
pattern 1. -/
theorem C5_send_framing_witness :
    sendMsg "avgt" (some (.scalar 1)) =
      .ok (toBytesBE 4 (4 + (toBytesBE 8 1).length) ++ asciiBytes "avgt" ++
        toBytesBE 8 1) :=
  C5_send_framing.1 "avgt" (.scalar 1) (toBytesBE 8 1) (by decide) (by decide)
    (by decide) rfl (by decide)

/-! ### Claim C6: update on an unrecognized code -/

/-- C6: for every code that is not a recognized store key, `update`
raises the `ValueError` carrying the code and payload byte length, and
the store is left unchanged (in particular the receive loop continues
with the same store). -/
theorem C6_update_unrecognized (st : Store) (cmd : String) (data : List Nat)
    (h : recognized cmd = false) :
    update st cmd data = .error (.fieldUpdateError cmd data.length) ∧
    ∀ st' evt, processMessage st cmd data = .ok (st', evt) → st' = st := by
  have hupd : update st cmd data = .error (.fieldUpdateError cmd data.length) := by
    unfold update
    rw [h]
    rfl
  refine ⟨hupd, ?_⟩
  intro st' evt hpm
  unfold processMessage at hpm
  by_cases hemp : data.isEmpty
  · rw [if_pos hemp] at hpm
    injection hpm with h1
    exact congrArg Prod.fst h1.symm
  · rw [if_neg hemp, hupd] at hpm
    injection hpm with h1
    exact congrArg Prod.fst h1.symm

/-- Witness for C6 at the unknown code `xxxx` with a 3-byte payload. -/
theorem C6_update_unrecognized_witness :
    update initStore "xxxx" [0, 1, 2] = .error (.fieldUpdateError "xxxx" 3) :=
  (C6_update_unrecognized initStore "xxxx" [0, 1, 2] rfl).1

/-! ### Claim C7: remote shutdown stops the loop -/

/-- C7: whenever the read of the length prefix returns zero bytes, the
receive loop sets the stopped flag, closes its resources and exits, and
no further store writes occur, whatever input would have followed. -/
theorem C7_remote_close_stops (st : Store) (rest : List Inbound) :
    readerRun st (Inbound.closed :: rest) =
      { store := st, stopped := true, closed := true, crash := none } := rfl

/-! ### Claim C8: get_data -/

/-- C8: `get_data` sends the `alld` request when `all_data` is set and
the `newd` request otherwise; when the data-ready event is set within
the timeout it clears the event and returns the stored value for that
command code, and otherwise it fails with `TimeoutError`. -/
theorem C8_get_data_behavior (cs : ClientState) (allData sig : Bool) :
    ((get_data cs allData sig).1 =
      .ok (if allData then [0, 0, 0, 4, 0x61, 0x6C, 0x6C, 0x64]
        else [0, 0, 0, 4, 0x6E, 0x65, 0x77, 0x64])) ∧
    ((cs.dataReady || sig) = true →
      (get_data cs allData sig).2.1.dataReady = false ∧
      (get_data cs allData sig).2.2 =
        .ok (cs.store (if allData then "alld" else "newd"))) ∧
    ((cs.dataReady || sig) = false →
      (get_data cs allData sig).2.1 = cs ∧
      (get_data cs allData sig).2.2 = .error .timeoutError) := by
  unfold get_data
  cases allData <;> by_cases h : (cs.dataReady || sig) = true <;>
    simp [h] <;> rfl

/-- Witness for C8: a set event yields the stored `alld` value, an
unset event times out. -/
theorem C8_get_data_behavior_witness :
    (get_data ⟨initStore, true⟩ true false).2.2 = .ok (initStore "alld") ∧
    (get_data ⟨initStore, false⟩ false false).2.2 = .error .timeoutError :=
  ⟨((C8_get_data_behavior ⟨initStore, true⟩ true false).2.1 rfl).2,
   ((C8_get_data_behavior ⟨initStore, false⟩ false false).2.2 rfl).2⟩

/-! ### Claim C9: empty payloads skip the store update -/

/-- C9: a message with an empty payload skips the store update entirely
— the store is unchanged and no exception is raised even for an
unrecognized code — while the data-ready event is still set exactly
when the code is `newd` or `alld`. -/
theorem C9_empty_payload_skips_update (st : Store) (cmd : String) :
    processMessage st cmd [] = .ok (st, cmd == "newd" || cmd == "alld") := rfl

/-! ### Claim C10: falsy send values -/

/-- C10: `send` treats every falsy value exactly like no value at all
(empty payload); in particular `measure(0)` and `select_channels([])`
transmit a frame with length prefix 4 and no payload bytes. -/
theorem C10_falsy_empty_payload :
    (∀ (cmd : String) (v : Option TmValue), truthy v = false →
      sendMsg cmd v = sendMsg cmd none) ∧
    measure 0 = .ok [0, 0, 0, 4, 0x6D, 0x65, 0x61, 0x73] ∧
    select_channels [] = .ok [0, 0, 0, 4, 0x73, 0x65, 0x6C, 0x63] := by
  refine ⟨?_, rfl, rfl⟩
  intro cmd v hv
  cases v with
  | none => rfl
  | some w =>
    have hv' : truthyVal w = false := hv
    have hpb : payloadBytes cmd (some w) = Except.ok [] := by
      show (if truthyVal w = true then pack cmd w else Except.ok []) =
        Except.ok []
      rw [hv']
      rfl
    unfold sendMsg
    rw [hpb]
    rfl

/-- Witness for C10: the falsy scalar 0 sends the same bytes as no
value. -/
theorem C10_falsy_empty_payload_witness :
    sendMsg "meas" (some (.scalar 0)) = sendMsg "meas" none :=
  C10_falsy_empty_payload.1 "meas" (some (.scalar 0)) rfl

end Tensormeter
